import Mathlib

/-!
# mypfs: upload handlers, route table and process exit status

A shallow embedding of `main.go`: the two upload handlers (`uploadHandler`,
`receiveHandler`), the route registration done by `main`, and the exit paths of
`init` and `main`.

Conventions of the embedding.

* A handler is a function from the request and the files of the working
  directory to the error it returns, the files afterwards, and the ordered
  trace of what it did (response writes, log lines, opening and closing of the
  two streams).
* What the Go library and the operating system decide is an input: the result
  of `r.FormFile`, whether `os.Create` fails, how far `io.Copy` gets.
* For a form part sent by a client, `r.FormFile` reports in `header.Filename`
  what `multipart.Part.FileName` makes of the filename parameter: its last path
  element (`filepath.Base`, separator `/`).
* `defer` is a stack of pending events that `return` runs, newest first.
* `errorHandler`, `authBasic`, `errorableHandler`, `FileServer` and `Dir` are
  defined outside `main.go`; `main` only composes them, so they are
  constructors of the handler expressions stored in the route table.
-/

namespace MyPfs

/-! ## Data model -/

/-- One byte of file content. -/
abbrev Byte := Fin 256

/-- A Go `error` value, identified by the text of its `Error()` method. -/
structure GoError where
  msg : String
  deriving DecidableEq, Repr

/-- The files seen from the working directory: the bytes stored under each
name that `os.Create` can be given, `none` when there is no such file. -/
abbrev FileSys := String → Option (List Byte)

/-- Store `content` under `name`, leaving every other name alone. -/
def FileSys.put (fs : FileSys) (name : String) (content : List Byte) : FileSys :=
  fun m => if m = name then some content else fs m

/-- The `multipart.FileHeader` fields the handlers read. -/
structure FileHeader where
  Filename : String
  deriving DecidableEq, Repr

/-- The `http.Request` fields the handlers read: the method, and what
`r.FormFile(key)` yields (the bytes of the multipart file and its header, or an
error). -/
structure Request where
  Method : String
  FormFile : String → Except GoError (List Byte × FileHeader)

/-- The operating system as the receiver meets it: `createErr name` is the error
of `os.Create(name)` if it fails; `copyFault = some (k, e)` makes `io.Copy` stop
with error `e` once `k` bytes have reached the destination. -/
structure Os where
  createErr : String → Option GoError
  copyFault : Option (Nat × GoError)

/-- What a handler is seen to do, in order. -/
inductive Event
  | openUpload
  | closeUpload
  | openDest (name : String)
  | closeDest (name : String)
  | respWrite (s : String)
  | logPrintln (s : String)
  deriving DecidableEq, Repr

/-- A handler in mid-flight: files, trace so far, deferred calls (newest first). -/
structure Ctx where
  fs : FileSys
  trace : List Event
  deferred : List Event

/-- A handler once returned. -/
structure Outcome where
  err : Option GoError
  fs : FileSys
  trace : List Event

/-- Append an event to the trace. -/
def Ctx.emit (c : Ctx) (e : Event) : Ctx :=
  { c with trace := c.trace ++ [e] }

/-- The statement `defer e`: push a pending call. -/
def Ctx.defer (c : Ctx) (e : Event) : Ctx :=
  { c with deferred := e :: c.deferred }

/-- The statement `return err`: run the deferred calls, newest first. -/
def Ctx.ret (c : Ctx) (err : Option GoError) : Outcome :=
  { err := err, fs := c.fs, trace := c.trace ++ c.deferred }

/-- The response body: everything written to `w`, in order. -/
def respBody : List Event → String
  | [] => ""
  | Event.respWrite s :: rest => s ++ respBody rest
  | _ :: rest => respBody rest

/-- The lines handed to `log.Println`, in order. -/
def logLines : List Event → List String
  | [] => []
  | Event.logPrintln s :: rest => s :: logLines rest
  | _ :: rest => logLines rest

/-- Is the event the opening or the closing of one of the two streams? -/
def Event.isStream : Event → Bool
  | .openUpload => true
  | .closeUpload => true
  | .openDest _ => true
  | .closeDest _ => true
  | .respWrite _ => false
  | .logPrintln _ => false

/-- The openings and closings of a trace, in order. -/
def streamEvents (t : List Event) : List Event :=
  t.filter Event.isStream

/-! ## Library calls -/

/-- The call `os.Create(name)`: fails with the error the system gives, else
creates the file or truncates it to length zero. -/
def osCreate (os : Os) (fs : FileSys) (name : String) : Except GoError FileSys :=
  match os.createErr name with
  | some e => .error e
  | none => .ok (fs.put name [])

/-- The call `io.Copy(out, file)` on the open destination `name`: appends the
bytes of `file` to what the destination holds, all of them or, on a fault, the
first `k`. -/
def ioCopy (os : Os) (fs : FileSys) (name : String) (file : List Byte) :
    FileSys × Option GoError :=
  let held := (fs name).getD []
  match os.copyFault with
  | none => (fs.put name (held ++ file), none)
  | some (k, e) => (fs.put name (held ++ file.take k), some e)

/-- A file part of a multipart form as the client sent it: the filename
parameter of its Content-Disposition header and its bytes. -/
structure ClientUpload where
  filename : String
  content : List Byte

/-- Go's `filepath.Base` for the separator `/`: "." for the empty path; else
the trailing slashes are dropped and what follows the last remaining slash is
returned, "/" when nothing remains. -/
def filepathBase (path : String) : String :=
  if path = "" then "."
  else
    let stripped := (path.data.reverse.dropWhile (fun c => c = '/')).reverse
    let last := (stripped.reverse.takeWhile (fun c => c ≠ '/')).reverse
    if last = [] then "/" else String.mk last

/-- The method `FileName` of `multipart.Part`: the filename parameter, passed
through `filepath.Base` when it is not empty. It becomes `header.Filename`. -/
def partFileName (filename : String) : String :=
  if filename = "" then "" else filepathBase filename

/-- What `r.FormFile(key)` yields when the field `key` of the form holds this
part: its bytes and a header carrying `partFileName`; a part without a filename
is a plain value and not a file, so the call fails with `http.ErrMissingFile`. -/
def formFilePart (u : ClientUpload) : Except GoError (List Byte × FileHeader) :=
  if u.filename = "" then .error ⟨"http: no such file"⟩
  else .ok (u.content, ⟨partFileName u.filename⟩)

/-! ## The handlers of main.go -/

/-- The format string of `uploadHandler` (it holds no verb, so `Fprintf` writes
it as it stands). -/
def uploadForm : String :=
  "<html>\n" ++
  "<head>\n" ++
  "  <title>GoLang HTTP Fileserver</title>\n" ++
  "  <!--\n" ++
  "  <meta http-equiv=\"Content-Type\" content=\"text/html; charset=UTF-8\" />\n" ++
  "  <meta http-equiv=\"Pragma\" content=\"no-cache\" />\n" ++
  "  <meta http-equiv=\"Expires\" content=\"-1\" />\n" ++
  "  <meta http-equiv=\"Cache-Control\" content=\"no-cache\" />\n" ++
  "  -->\n" ++
  "</head>\n" ++
  "\n" ++
  "<body>\n" ++
  "\n" ++
  "<h4>Choose a file to upload</h4>\n" ++
  "\n" ++
  "<form action=\"/fs-receive\" method=\"post\" enctype=\"multipart/form-data\">\n" ++
  "  <input type=\"file\" name=\"file\" id=\"file\">\n" ++
  "  <br> <br>\n" ++
  "  <input type=\"submit\" name=\"submit\" value=\"Submit\">\n" ++
  "</form>\n" ++
  "\n" ++
  "</body>\n" ++
  "</html>"

/-- The body written when `os.Create` fails. -/
def createFailedMsg : String :=
  "Unable to create the file for writing. Check your write access privilege"

/-- The confirmation page: the format string of `receiveHandler` with the
filename in place of its one verb. -/
def confirmationPage (filename : String) : String :=
  "<html>\nFile uploaded successfully: " ++ filename ++
    " \n<p><a href=\"/\">Back</a></p>\n<html>"

/-- The output of `fmt.Fprintln(w, err)`. -/
def fprintlnErr (e : GoError) : String :=
  e.msg ++ "\n"

/-- The line of `log.Println("File received:", name)`, without the time stamp. -/
def receivedLogLine (filename : String) : String :=
  "File received: " ++ filename

/-- The handler `uploadHandler` returns an HTML upload form. -/
def uploadHandler (_os : Os) (r : Request) (fs : FileSys) : Outcome :=
  let c : Ctx := { fs := fs, trace := [], deferred := [] }
  if r.Method = "GET" then
    (c.emit (.respWrite uploadForm)).ret none
  else
    c.ret none

/-- The handler `receiveHandler` accepts the file and saves it to the current
working directory. -/
def receiveHandler (os : Os) (r : Request) (fs : FileSys) : Outcome :=
  let c : Ctx := { fs := fs, trace := [], deferred := [] }
  match r.FormFile "file" with
  | .error err =>
    (c.emit (.respWrite (fprintlnErr err))).ret (some err)
  | .ok (file, header) =>
    let c := (c.emit .openUpload).defer .closeUpload
    match osCreate os c.fs header.Filename with
    | .error err =>
      (c.emit (.respWrite createFailedMsg)).ret (some err)
    | .ok created =>
      let c := (({ c with fs := created }).emit (.openDest header.Filename)).defer
        (.closeDest header.Filename)
      match ioCopy os c.fs header.Filename file with
      | (written, some err) =>
        (({ c with fs := written }).emit (.respWrite (fprintlnErr err))).ret (some err)
      | (written, none) =>
        ((({ c with fs := written }).emit (.logPrintln (receivedLogLine header.Filename))).emit
          (.respWrite (confirmationPage header.Filename))).ret none

/-! ## Route registration and the exit paths of init and main -/

/-- A handler expression as `main` hands it to `http.Handle`. -/
inductive Handler
  | uploadHandler
  | receiveHandler
  | FileServer (root : String) (addUploadHeader : Bool)
  | errorableHandler (h : Handler)
  | authBasic (h : Handler)
  | errorHandler (h : Handler)
  deriving DecidableEq, Repr

/-- Does the expression contain the listing/file responder? -/
def Handler.servesFiles : Handler → Bool
  | .uploadHandler => false
  | .receiveHandler => false
  | .FileServer _ _ => true
  | .errorableHandler h => h.servesFiles
  | .authBasic h => h.servesFiles
  | .errorHandler h => h.servesFiles

/-- Is the expression free of the authentication gate and of the error adapter? -/
def Handler.bare : Handler → Bool
  | .uploadHandler => true
  | .receiveHandler => true
  | .FileServer _ _ => true
  | .errorableHandler h => h.bare
  | .authBasic _ => false
  | .errorHandler _ => false

/-- The function of main.go that a handler expression has at its core: the
identifiers `uploadHandler` and `receiveHandler` in `main` name the two
functions above. The file server is defined outside main.go. -/
def Handler.core : Handler → Option (Os → Request → FileSys → Outcome)
  | .uploadHandler => some MyPfs.uploadHandler
  | .receiveHandler => some MyPfs.receiveHandler
  | .FileServer _ _ => none
  | .errorableHandler h => h.core
  | .authBasic h => h.core
  | .errorHandler h => h.core

/-- What ends a process whose timer goroutine is running: `net.Listen` fails,
`http.Serve` returns, or the sleep of `timeoutMinutes` minutes is over. -/
inductive Ending
  | listenFailed
  | serveReturned
  | timerExpired
  deriving DecidableEq, Repr

/-- What the process meets at startup: whether `myPfsCmd.Execute()` fails, the
value of `action` after it, the result of `os.Getwd()`, whether
`net.InterfaceAddrs()` fails, and what ends the serving phase. -/
structure Startup where
  executeErr : Bool
  action : String
  getwd : Except GoError String
  interfaceAddrsErr : Bool
  ending : Ending

/-- The process while it runs: the patterns registered with `http.Handle`, in
order, and whether the timer goroutine has been started. -/
structure Proc where
  mux : List (String × Handler)
  timerStarted : Bool

/-- The process once it has exited. -/
structure Exited where
  status : Nat
  mux : List (String × Handler)
  timerStarted : Bool

/-- The call `os.Exit(status)`. -/
def Proc.exit (p : Proc) (status : Nat) : Exited :=
  { status := status, mux := p.mux, timerStarted := p.timerStarted }

/-- The call `http.Handle(pattern, h)`. -/
def Proc.handle (p : Proc) (pattern : String) (h : Handler) : Proc :=
  { p with mux := p.mux ++ [(pattern, h)] }

/-- The function `printAddressAndPort`: `log.Fatal` (exit status 1) when the
interface addresses cannot be read, else it only prints. -/
def printAddressAndPort (s : Startup) (p : Proc) : Except Exited Proc :=
  if s.interfaceAddrsErr then .error (p.exit 1) else .ok p

/-- The function `main`. -/
def main (s : Startup) (p : Proc) : Exited :=
  match s.getwd with
  | .error _ => p.exit 1
  | .ok dir =>
    if s.action = "help" then p.exit 0
    else if s.action = "version" then p.exit 0
    else
      let routed : Except Exited Proc :=
        if s.action = "up" then
          (printAddressAndPort s p).map fun p =>
            (p.handle "/" (.errorHandler (.authBasic .uploadHandler))).handle
              "/fs-receive" (.errorHandler (.authBasic .receiveHandler))
        else if s.action = "down" then
          (printAddressAndPort s p).map fun p =>
            p.handle "/" (.errorHandler (.authBasic (.errorableHandler (.FileServer dir false))))
        else if s.action = "up/down" then
          (printAddressAndPort s p).map fun p =>
            ((p.handle "/fs-upload" (.errorHandler (.authBasic .uploadHandler))).handle
              "/fs-receive" (.errorHandler (.authBasic .receiveHandler))).handle
              "/" (.errorHandler (.authBasic (.errorableHandler (.FileServer dir true))))
        else .ok p
      match routed with
      | .error gone => gone
      | .ok p =>
        -- go func() { time.Sleep(...); os.Exit(0) }()
        let p := { p with timerStarted := true }
        match s.ending with
        | .timerExpired => p.exit 0
        | .listenFailed => p.exit 1
        | .serveReturned => p.exit 1

/-- The whole program: `init` (exit status 1 when the command fails; the secret
username it then draws plays no part in the exit status), then `main`. -/
def run (s : Startup) : Exited :=
  let p : Proc := { mux := [], timerStarted := false }
  if s.executeErr then p.exit 1 else main s p

/-- A startup in which the command, the directory lookup and the address lookup
all succeed. -/
def serving (action dir : String) (ending : Ending) : Startup :=
  { executeErr := false, action := action, getwd := .ok dir,
    interfaceAddrsErr := false, ending := ending }


/-! ## Concrete inputs -/

/-- An operating system on which nothing fails. -/
def noFaults : Os :=
  { createErr := fun _ => none, copyFault := none }

/-- An operating system on which `io.Copy` fails with "no space left on device"
once two bytes are written. -/
def diskFull : Os :=
  { createErr := fun _ => none, copyFault := some (2, ⟨"no space left on device"⟩) }

/-- An operating system on which `os.Create` is refused. -/
def readOnlyDir : Os :=
  { createErr := fun _ => some ⟨"permission denied"⟩, copyFault := none }

/-- A request with the given method whose form holds the file "report.csv", of
the given bytes, in the field "file" and nothing in any other field. -/
def reportUpload (method : String) (content : List Byte) : Request :=
  { Method := method
    FormFile := fun key =>
      if key = "file" then .ok (content, ⟨"report.csv"⟩)
      else .error ⟨"http: no such file"⟩ }

/-- A request with the given method and no multipart form. -/
def plainRequest (method : String) : Request :=
  { Method := method
    FormFile := fun _ => .error ⟨"request Content-Type isn't multipart/form-data"⟩ }

/-- A request with the given method whose form holds this part in the field
"file" and nothing in any other field. -/
def clientRequest (method : String) (u : ClientUpload) : Request :=
  { Method := method
    FormFile := fun key =>
      if key = "file" then formFilePart u else .error ⟨"http: no such file"⟩ }

/-- A part whose client-supplied filename names a file inside a directory. -/
def nestedUpload : ClientUpload :=
  { filename := "sub/report.csv", content := [1, 2, 3] }

/-- A part whose client-supplied filename is a plain name. -/
def plainUpload : ClientUpload :=
  { filename := "report.csv", content := [1, 2, 3] }

/-- A working directory with no file. -/
def emptyDir : FileSys :=
  fun _ => none

/-- A working directory holding "report.csv" (four bytes) and "notes.txt". -/
def someDir : FileSys :=
  fun m => if m = "report.csv" then some [9, 9, 9, 9]
    else if m = "notes.txt" then some [7] else none

/-- The help action started from a working directory that is gone. -/
def helpWithoutDir : Startup :=
  { executeErr := false, action := "help",
    getwd := .error ⟨"getwd: no such file or directory"⟩,
    interfaceAddrsErr := false, ending := .timerExpired }

/-- Mode "up" on a host whose interface addresses cannot be read. -/
def upWithoutAddrs : Startup :=
  { executeErr := false, action := "up", getwd := .ok "/srv",
    interfaceAddrsErr := true, ending := .timerExpired }

/-! ## Theorems -/

/-! ### Evaluation lemmas -/

theorem respBody_single (s : String) : respBody [Event.respWrite s] = s := by
  simp [respBody]

theorem run_serving_up (dir : String) (ending : Ending) :
    (run (serving "up" dir ending)).mux =
      [("/", .errorHandler (.authBasic .uploadHandler)),
       ("/fs-receive", .errorHandler (.authBasic .receiveHandler))] := by
  cases ending <;>
    simp [run, serving, main, printAddressAndPort, Proc.handle, Proc.exit, Except.map]

theorem run_serving_down (dir : String) (ending : Ending) :
    (run (serving "down" dir ending)).mux =
      [("/", .errorHandler (.authBasic (.errorableHandler (.FileServer dir false))))] := by
  cases ending <;>
    simp [run, serving, main, printAddressAndPort, Proc.handle, Proc.exit, Except.map]

theorem run_serving_updown (dir : String) (ending : Ending) :
    (run (serving "up/down" dir ending)).mux =
      [("/fs-upload", .errorHandler (.authBasic .uploadHandler)),
       ("/fs-receive", .errorHandler (.authBasic .receiveHandler)),
       ("/", .errorHandler (.authBasic (.errorableHandler (.FileServer dir true))))] := by
  cases ending <;>
    simp [run, serving, main, printAddressAndPort, Proc.handle, Proc.exit, Except.map]

/-- Whatever the startup, the registered routes are one of four lists: none, or
the table of one of the three modes for the directory found. -/
theorem run_mux_cases (s : Startup) :
    (run s).mux = [] ∨
    (s.action = "up" ∧ (run s).mux =
      [("/", .errorHandler (.authBasic .uploadHandler)),
       ("/fs-receive", .errorHandler (.authBasic .receiveHandler))]) ∨
    (s.action = "down" ∧ ∃ dir, s.getwd = .ok dir ∧ (run s).mux =
      [("/", .errorHandler (.authBasic (.errorableHandler (.FileServer dir false))))]) ∨
    (s.action = "up/down" ∧ ∃ dir, s.getwd = .ok dir ∧ (run s).mux =
      [("/fs-upload", .errorHandler (.authBasic .uploadHandler)),
       ("/fs-receive", .errorHandler (.authBasic .receiveHandler)),
       ("/", .errorHandler (.authBasic (.errorableHandler (.FileServer dir true))))]) := by
  obtain ⟨x, a, g, i, e⟩ := s
  cases x <;> cases g <;> cases i <;> cases e <;>
    by_cases h1 : a = "help" <;> by_cases h2 : a = "version" <;>
    by_cases h3 : a = "up" <;> by_cases h4 : a = "down" <;>
    by_cases h5 : a = "up/down" <;>
    simp_all [run, main, printAddressAndPort, Proc.handle, Proc.exit, Except.map]

/-! ### The route table (C1, C2, C10) -/

/-- C1: for each of the three modes, `main` registers exactly the table of that
mode, in this order and nothing else. Mode "up": "/" is the upload form and
"/fs-receive" the receiver, and no registered handler contains the listing/file
responder. Mode "down": only "/", the listing/file responder built with
`addUploadHeader = false`. Mode "up/down": "/fs-upload" the upload form,
"/fs-receive" the receiver, "/" the responder built with
`addUploadHeader = true`. -/
theorem main_registers_exactly_the_mode_table (dir : String) (ending : Ending) :
    ((run (serving "up" dir ending)).mux =
        [("/", .errorHandler (.authBasic .uploadHandler)),
         ("/fs-receive", .errorHandler (.authBasic .receiveHandler))]
      ∧ ∀ route ∈ (run (serving "up" dir ending)).mux, route.2.servesFiles = false)
    ∧ (run (serving "down" dir ending)).mux =
        [("/", .errorHandler (.authBasic (.errorableHandler (.FileServer dir false))))]
    ∧ (run (serving "up/down" dir ending)).mux =
        [("/fs-upload", .errorHandler (.authBasic .uploadHandler)),
         ("/fs-receive", .errorHandler (.authBasic .receiveHandler)),
         ("/", .errorHandler (.authBasic (.errorableHandler (.FileServer dir true))))] := by
  refine ⟨⟨run_serving_up dir ending, ?_⟩, run_serving_down dir ending,
    run_serving_updown dir ending⟩
  rw [run_serving_up]
  intro route hroute
  simp only [List.mem_cons, List.mem_singleton, List.not_mem_nil, or_false] at hroute
  rcases hroute with rfl | rfl <;> rfl

/-- C2: whatever the startup (so in every mode), every handler in the route
table is `errorHandler (authBasic inner)` with `inner` free of both wrappers:
the error adapter is outermost, the gate directly inside, and the mode's handler
sits under the gate. -/
theorem every_route_is_gated (s : Startup) (pattern : String) (h : Handler)
    (hreg : (pattern, h) ∈ (run s).mux) :
    ∃ inner, h = .errorHandler (.authBasic inner) ∧ inner.bare = true := by
  rcases run_mux_cases s with hm | ⟨_, hm⟩ | ⟨_, dir, _, hm⟩ | ⟨_, dir, _, hm⟩ <;>
    rw [hm] at hreg <;>
    simp only [List.mem_cons, List.mem_singleton, List.not_mem_nil, or_false,
      Prod.mk.injEq] at hreg
  · rcases hreg with ⟨_, rfl⟩ | ⟨_, rfl⟩
    · exact ⟨_, rfl, rfl⟩
    · exact ⟨_, rfl, rfl⟩
  · rcases hreg with ⟨_, rfl⟩
    exact ⟨_, rfl, rfl⟩
  · rcases hreg with ⟨_, rfl⟩ | ⟨_, rfl⟩ | ⟨_, rfl⟩
    · exact ⟨_, rfl, rfl⟩
    · exact ⟨_, rfl, rfl⟩
    · exact ⟨_, rfl, rfl⟩

/-- Witness of C2: the listing route of mode "up/down" on directory "/srv". -/
theorem every_route_is_gated_witness :
    ("/", Handler.errorHandler (.authBasic (.errorableHandler (.FileServer "/srv" true))))
        ∈ (run (serving "up/down" "/srv" .timerExpired)).mux
    ∧ ∃ inner, Handler.errorHandler (.authBasic (.errorableHandler (.FileServer "/srv" true)))
        = .errorHandler (.authBasic inner) ∧ inner.bare = true :=
  ⟨by decide, every_route_is_gated (serving "up/down" "/srv" .timerExpired) "/" _ (by decide)⟩

set_option maxRecDepth 20000 in
/-- The page of `uploadHandler`, cut at the form and at its file input. -/
theorem uploadForm_split :
    uploadForm =
      "<html>\n<head>\n  <title>GoLang HTTP Fileserver</title>\n  <!--\n  <meta http-equiv=\"Content-Type\" content=\"text/html; charset=UTF-8\" />\n  <meta http-equiv=\"Pragma\" content=\"no-cache\" />\n  <meta http-equiv=\"Expires\" content=\"-1\" />\n  <meta http-equiv=\"Cache-Control\" content=\"no-cache\" />\n  -->\n</head>\n\n<body>\n\n<h4>Choose a file to upload</h4>\n\n"
        ++ "<form action=\"/fs-receive\" method=\"post\" enctype=\"multipart/form-data\">"
        ++ "\n  " ++ "<input type=\"file\" name=\"file\" id=\"file\">"
        ++ "\n  <br> <br>\n  <input type=\"submit\" name=\"submit\" value=\"Submit\">\n"
        ++ "</form>" ++ "\n\n</body>\n</html>" := by
  decide

/-- On a GET the body written by `uploadHandler` is the upload form. -/
theorem uploadHandler_get_body (os : Os) (r : Request) (fs : FileSys)
    (hget : r.Method = "GET") :
    respBody (uploadHandler os r fs).trace = uploadForm := by
  simp [uploadHandler, hget, Ctx.emit, Ctx.ret, respBody]

/-- C10: the form and the receiver agree. On a GET the body that the function
`uploadHandler` writes is some text, the tag `<form action="/fs-receive"
method="post" enctype="multipart/form-data">`, inside that form the input
`<input type="file" name="file" id="file">`, the closing tag `</form>`, and
some text. The result of the function `receiveHandler` depends on the request
only through `FormFile "file"`, and it stores the file of that field. And
whenever the route table holds a handler whose core is the function
`uploadHandler` (as it does in modes "up" and "up/down"), it binds the path
"/fs-receive" to `errorHandler (authBasic receiveHandler)`, whose core is the
function `receiveHandler`. -/
theorem upload_form_and_receiver_agree :
    (∃ before between after : String, ∀ (os : Os) (r : Request) (fs : FileSys),
        r.Method = "GET" →
          respBody (uploadHandler os r fs).trace =
            before
              ++ "<form action=\"/fs-receive\" method=\"post\" enctype=\"multipart/form-data\">"
              ++ "\n  " ++ "<input type=\"file\" name=\"file\" id=\"file\">"
              ++ between ++ "</form>" ++ after)
    ∧ (∀ (os : Os) (r1 r2 : Request) (fs : FileSys),
        r1.FormFile "file" = r2.FormFile "file" →
          receiveHandler os r1 fs = receiveHandler os r2 fs)
    ∧ (∀ (os : Os) (r : Request) (fs : FileSys) (file : List Byte) (header : FileHeader),
        r.FormFile "file" = .ok (file, header) → os.createErr header.Filename = none →
          os.copyFault = none → (receiveHandler os r fs).fs header.Filename = some file)
    ∧ (∀ (s : Startup) (pattern : String) (h : Handler),
        (pattern, h) ∈ (run s).mux → h.core = some MyPfs.uploadHandler →
          (run s).mux.lookup "/fs-receive"
              = some (.errorHandler (.authBasic .receiveHandler))
          ∧ (Handler.errorHandler (.authBasic .receiveHandler)).core
              = some MyPfs.receiveHandler)
    ∧ (∀ (dir : String) (ending : Ending),
        (∃ h, ("/", h) ∈ (run (serving "up" dir ending)).mux
          ∧ h.core = some MyPfs.uploadHandler)
        ∧ (∃ h, ("/fs-upload", h) ∈ (run (serving "up/down" dir ending)).mux
          ∧ h.core = some MyPfs.uploadHandler)) := by
  refine ⟨?_, ?_, ?_, ?_, ?_⟩
  · refine ⟨"<html>\n<head>\n  <title>GoLang HTTP Fileserver</title>\n  <!--\n  <meta http-equiv=\"Content-Type\" content=\"text/html; charset=UTF-8\" />\n  <meta http-equiv=\"Pragma\" content=\"no-cache\" />\n  <meta http-equiv=\"Expires\" content=\"-1\" />\n  <meta http-equiv=\"Cache-Control\" content=\"no-cache\" />\n  -->\n</head>\n\n<body>\n\n<h4>Choose a file to upload</h4>\n\n",
      "\n  <br> <br>\n  <input type=\"submit\" name=\"submit\" value=\"Submit\">\n",
      "\n\n</body>\n</html>", fun os r fs hget => ?_⟩
    rw [uploadHandler_get_body os r fs hget]
    exact uploadForm_split
  · intro os r1 r2 fs h
    simp only [receiveHandler, h]
  · intro os r fs file header hf hc hk
    simp [receiveHandler, hf, osCreate, hc, ioCopy, hk, Ctx.emit, Ctx.defer, Ctx.ret,
      FileSys.put]
  · intro s pattern h hreg hcore
    rcases run_mux_cases s with hm | ⟨_, hm⟩ | ⟨_, dir, _, hm⟩ | ⟨_, dir, _, hm⟩ <;>
      rw [hm] at hreg ⊢ <;>
      simp only [List.mem_cons, List.mem_singleton, List.not_mem_nil, or_false,
        Prod.mk.injEq] at hreg
    · exact ⟨by simp [List.lookup], rfl⟩
    · rcases hreg with ⟨_, rfl⟩
      simp [Handler.core] at hcore
    · exact ⟨by simp [List.lookup], rfl⟩
  · intro dir ending
    rw [run_serving_up, run_serving_updown]
    exact ⟨⟨.errorHandler (.authBasic .uploadHandler), by simp, rfl⟩,
      ⟨.errorHandler (.authBasic .uploadHandler), by simp, rfl⟩⟩

/-- Witness of C10: in mode "up/down" the route "/fs-upload" has the function
`uploadHandler` at its core, and the table binds "/fs-receive" to the receiver. -/
theorem upload_form_and_receiver_agree_witness :
    (run (serving "up/down" "/srv" .timerExpired)).mux.lookup "/fs-receive"
        = some (.errorHandler (.authBasic .receiveHandler))
    ∧ (Handler.errorHandler (.authBasic .receiveHandler)).core
        = some MyPfs.receiveHandler :=
  upload_form_and_receiver_agree.2.2.2.1 (serving "up/down" "/srv" .timerExpired)
    "/fs-upload" (.errorHandler (.authBasic .uploadHandler)) (by decide) rfl

/-! ### The upload form handler (C9) -/

/-- C9: `uploadHandler` never returns an error, leaves every file as it was and
opens or closes nothing; on method GET it writes exactly the upload form, and on
any other method it writes nothing, so that the response body is empty. -/
theorem uploadHandler_form_exactly_on_get (os : Os) (r : Request) (fs : FileSys) :
    (uploadHandler os r fs).err = none
    ∧ (uploadHandler os r fs).fs = fs
    ∧ (∀ e ∈ (uploadHandler os r fs).trace, e = Event.respWrite uploadForm)
    ∧ (r.Method = "GET" → respBody (uploadHandler os r fs).trace = uploadForm)
    ∧ (r.Method ≠ "GET" → (uploadHandler os r fs).trace = []
        ∧ respBody (uploadHandler os r fs).trace = "")
    ∧ (Event.respWrite uploadForm ∈ (uploadHandler os r fs).trace ↔ r.Method = "GET")
    ∧ uploadForm ≠ "" := by
  refine ⟨?_, ?_, ?_, ?_, ?_, ?_, by decide⟩ <;>
    by_cases hm : r.Method = "GET" <;>
    simp [uploadHandler, hm, Ctx.emit, Ctx.ret, respBody]

/-- Witness of C9: a GET gets the form, a POST an empty body. -/
theorem uploadHandler_form_exactly_on_get_witness :
    respBody (uploadHandler noFaults (plainRequest "GET") someDir).trace = uploadForm
    ∧ respBody (uploadHandler noFaults (plainRequest "POST") someDir).trace = "" :=
  ⟨(uploadHandler_form_exactly_on_get noFaults (plainRequest "GET") someDir).2.2.2.1 rfl,
   ((uploadHandler_form_exactly_on_get noFaults (plainRequest "POST") someDir).2.2.2.2.1
      (by decide)).2⟩

/-! ### The four exit paths of the receiver -/

theorem put_same (fs : FileSys) (n : String) (c : List Byte) : (fs.put n c) n = some c := by
  simp [FileSys.put]

theorem put_other (fs : FileSys) (n m : String) (c : List Byte) (h : m ≠ n) :
    (fs.put n c) m = fs m := by
  simp [FileSys.put, h]

theorem put_put (fs : FileSys) (n : String) (a b : List Byte) :
    (fs.put n a).put n b = fs.put n b := by
  funext m
  by_cases h : m = n <;> simp [FileSys.put, h]

/-- Exit at line 72: `r.FormFile` failed. -/
theorem receive_extract_failed (os : Os) (r : Request) (fs : FileSys) (e : GoError)
    (hf : r.FormFile "file" = .error e) :
    receiveHandler os r fs =
      { err := some e, fs := fs, trace := [.respWrite (fprintlnErr e)] } := by
  simp [receiveHandler, hf, Ctx.emit, Ctx.ret]

/-- Exit at line 80: `os.Create` failed. -/
theorem receive_create_failed (os : Os) (r : Request) (fs : FileSys) (file : List Byte)
    (header : FileHeader) (e : GoError)
    (hf : r.FormFile "file" = .ok (file, header))
    (hc : os.createErr header.Filename = some e) :
    receiveHandler os r fs =
      { err := some e, fs := fs,
        trace := [.openUpload, .respWrite createFailedMsg, .closeUpload] } := by
  simp [receiveHandler, hf, osCreate, hc, Ctx.emit, Ctx.defer, Ctx.ret]

/-- Exit at line 89: `io.Copy` failed after `k` bytes. -/
theorem receive_copy_failed (os : Os) (r : Request) (fs : FileSys) (file : List Byte)
    (header : FileHeader) (k : Nat) (e : GoError)
    (hf : r.FormFile "file" = .ok (file, header))
    (hc : os.createErr header.Filename = none)
    (hk : os.copyFault = some (k, e)) :
    receiveHandler os r fs =
      { err := some e, fs := fs.put header.Filename (file.take k),
        trace := [.openUpload, .openDest header.Filename, .respWrite (fprintlnErr e),
          .closeDest header.Filename, .closeUpload] } := by
  simp [receiveHandler, hf, osCreate, hc, ioCopy, hk, Ctx.emit, Ctx.defer, Ctx.ret,
    put_same, put_put]

/-- Exit at line 98: the upload is stored. -/
theorem receive_stored (os : Os) (r : Request) (fs : FileSys) (file : List Byte)
    (header : FileHeader)
    (hf : r.FormFile "file" = .ok (file, header))
    (hc : os.createErr header.Filename = none)
    (hk : os.copyFault = none) :
    receiveHandler os r fs =
      { err := none, fs := fs.put header.Filename file,
        trace := [.openUpload, .openDest header.Filename,
          .logPrintln (receivedLogLine header.Filename),
          .respWrite (confirmationPage header.Filename),
          .closeDest header.Filename, .closeUpload] } := by
  simp [receiveHandler, hf, osCreate, hc, ioCopy, hk, Ctx.emit, Ctx.defer, Ctx.ret,
    put_same, put_put]

/-- Every call of the receiver leaves by one of the four exits. -/
theorem receive_paths (os : Os) (r : Request) :
    (∃ e, r.FormFile "file" = .error e)
    ∨ (∃ file header e, r.FormFile "file" = .ok (file, header)
        ∧ os.createErr header.Filename = some e)
    ∨ (∃ file header k e, r.FormFile "file" = .ok (file, header)
        ∧ os.createErr header.Filename = none ∧ os.copyFault = some (k, e))
    ∨ (∃ file header, r.FormFile "file" = .ok (file, header)
        ∧ os.createErr header.Filename = none ∧ os.copyFault = none) := by
  cases hf : r.FormFile "file" with
  | error e => exact Or.inl ⟨e, rfl⟩
  | ok fh =>
    obtain ⟨file, header⟩ := fh
    cases hc : os.createErr header.Filename with
    | some e => exact Or.inr (Or.inl ⟨file, header, e, rfl, hc⟩)
    | none =>
      cases hk : os.copyFault with
      | some ke => exact Or.inr (Or.inr (Or.inl ⟨file, header, ke.1, ke.2, rfl, hc, rfl⟩))
      | none => exact Or.inr (Or.inr (Or.inr ⟨file, header, rfl, hc, rfl⟩))

theorem confirmationPage_last (n : String) :
    (confirmationPage n).data.getLast? = some '>' := by
  simp [confirmationPage, String.data_append, List.getLast?_cons]

theorem confirmationPage_head (n : String) :
    (confirmationPage n).data.head? = some '<' := by
  simp [confirmationPage, String.data_append]

/-- A line written by `Fprintln` ends in a newline; the confirmation page does not. -/
theorem fprintlnErr_ne_confirmationPage (e : GoError) (n : String) :
    fprintlnErr e ≠ confirmationPage n := by
  intro h
  have h1 := congrArg (fun s => s.data.getLast?) h
  simp [fprintlnErr, confirmationPage_last, String.data_append] at h1

theorem createFailedMsg_ne_confirmationPage (n : String) :
    createFailedMsg ≠ confirmationPage n := by
  intro h
  have h1 := congrArg (fun s => s.data.head?) h
  simp [createFailedMsg, confirmationPage_head] at h1

/-- When the receiver returns no error it left by the last exit. -/
theorem receive_no_error (os : Os) (r : Request) (fs : FileSys)
    (hok : (receiveHandler os r fs).err = none) :
    ∃ file header, r.FormFile "file" = .ok (file, header)
      ∧ os.createErr header.Filename = none ∧ os.copyFault = none := by
  rcases receive_paths os r with ⟨e, hf⟩ | ⟨file, header, e, hf, hc⟩ |
    ⟨file, header, k, e, hf, hc, hk⟩ | h
  · rw [receive_extract_failed os r fs e hf] at hok
    simp at hok
  · rw [receive_create_failed os r fs file header e hf hc] at hok
    simp at hok
  · rw [receive_copy_failed os r fs file header k e hf hc hk] at hok
    simp at hok
  · exact h

/-! ### The upload receiver (C3, C4, C5, C6, C8) -/

/-- A return without error stores the bytes of the form file under the name
its header carries, leaves the other names alone, and so does a second such
call for the same header name. -/
theorem stored_under_header_name (os : Os) (r : Request) (fs : FileSys)
    (n : String) (C : List Byte)
    (hup : r.FormFile "file" = .ok (C, ⟨n⟩))
    (hok : (receiveHandler os r fs).err = none) :
    (receiveHandler os r fs).fs n = some C
    ∧ (∀ m, m ≠ n → (receiveHandler os r fs).fs m = fs m)
    ∧ (∀ (os2 : Os) (r2 : Request) (C2 : List Byte),
        r2.FormFile "file" = .ok (C2, ⟨n⟩) →
        (receiveHandler os2 r2 (receiveHandler os r fs).fs).err = none →
          (receiveHandler os2 r2 (receiveHandler os r fs).fs).fs n = some C2
          ∧ ∀ m, m ≠ n →
              (receiveHandler os2 r2 (receiveHandler os r fs).fs).fs m = fs m) := by
  obtain ⟨file, header, hf, hc, hk⟩ := receive_no_error os r fs hok
  rw [hup] at hf
  cases hf
  have h1 := receive_stored os r fs C ⟨n⟩ hup hc hk
  refine ⟨by rw [h1]; exact put_same fs n C,
    fun m hm => by rw [h1]; exact put_other fs n m C hm, ?_⟩
  intro os2 r2 C2 hup2 hok2
  obtain ⟨file2, header2, hf2, hc2, hk2⟩ := receive_no_error os2 r2 _ hok2
  rw [hup2] at hf2
  cases hf2
  rw [receive_stored os2 r2 _ C2 ⟨n⟩ hup2 hc2 hk2, h1]
  refine ⟨put_same _ n C2, fun m hm => ?_⟩
  show ((fs.put n C).put n C2) m = fs m
  rw [put_put]
  exact put_other fs n m C2 hm

theorem dropWhile_none {α : Type} (p : α → Bool) (l : List α)
    (h : ∀ x ∈ l, p x = false) : l.dropWhile p = l := by
  cases l with
  | nil => rfl
  | cons a t => simp [List.dropWhile, h a (List.mem_cons_self a t)]

/-- A name without a slash is its own last element. -/
theorem filepathBase_plain (p : String) (hne : p ≠ "") (hs : '/' ∉ p.data) :
    filepathBase p = p := by
  have hd : p.data ≠ [] := by
    intro h
    apply hne
    cases p
    simp_all
  have h1 : p.data.reverse.dropWhile (fun c => decide (c = '/')) = p.data.reverse := by
    apply dropWhile_none
    intro x hx
    have hx2 : x ∈ p.data := List.mem_reverse.mp hx
    simp only [decide_eq_false_iff_not]
    rintro rfl
    exact hs hx2
  have h2 : p.data.reverse.takeWhile (fun c => decide (c ≠ '/')) = p.data.reverse := by
    rw [List.takeWhile_eq_self_iff]
    intro x hx
    have hx2 : x ∈ p.data := List.mem_reverse.mp hx
    simp only [decide_eq_true_eq]
    rintro rfl
    exact hs hx2
  unfold filepathBase
  simp only [hne, if_false, h1, List.reverse_reverse, h2]
  simp [hd]

/-- The form file of a part with a filename. -/
theorem formFilePart_named (u : ClientUpload) (hne : u.filename ≠ "") :
    formFilePart u = .ok (u.content, ⟨filepathBase u.filename⟩) := by
  simp [formFilePart, partFileName, hne]

/-- Counterexample to C3 as stated: the client names its upload
"sub/report.csv"; the receiver returns no error, yet afterwards there is no
file of that name: the bytes are in "report.csv", the last element of the
client-supplied name, which is what `header.Filename` carries. -/
theorem client_filename_is_not_kept :
    nestedUpload.filename = "sub/report.csv"
    ∧ (receiveHandler noFaults (clientRequest "POST" nestedUpload) emptyDir).err = none
    ∧ (receiveHandler noFaults (clientRequest "POST" nestedUpload) emptyDir).fs
        "sub/report.csv" = none
    ∧ (receiveHandler noFaults (clientRequest "POST" nestedUpload) emptyDir).fs
        "report.csv" = some [1, 2, 3] := by
  refine ⟨rfl, by decide, by decide, by decide⟩

/-- C3, as the code has it: if the receiver returns no error for an upload that
the client named `n` and whose bytes are `C`, whatever the files were before,
then afterwards the file named by the last path element of `n` (the name in
`header.Filename`; it is `n` itself when `n` holds no slash) holds exactly `C`
and every other file is as it was; and a second upload under the same name that
returns no error leaves exactly its own bytes in that file, every other file
still as at the start. -/
theorem successful_upload_stores_under_base_name (os : Os) (r : Request) (fs : FileSys)
    (u : ClientUpload)
    (hup : r.FormFile "file" = formFilePart u)
    (hok : (receiveHandler os r fs).err = none) :
    (receiveHandler os r fs).fs (filepathBase u.filename) = some u.content
    ∧ (∀ m, m ≠ filepathBase u.filename → (receiveHandler os r fs).fs m = fs m)
    ∧ ('/' ∉ u.filename.data → filepathBase u.filename = u.filename)
    ∧ (∀ (os2 : Os) (r2 : Request) (C2 : List Byte),
        r2.FormFile "file" = formFilePart ⟨u.filename, C2⟩ →
        (receiveHandler os2 r2 (receiveHandler os r fs).fs).err = none →
          (receiveHandler os2 r2 (receiveHandler os r fs).fs).fs (filepathBase u.filename)
            = some C2
          ∧ ∀ m, m ≠ filepathBase u.filename →
              (receiveHandler os2 r2 (receiveHandler os r fs).fs).fs m = fs m) := by
  have hne : u.filename ≠ "" := by
    intro hempty
    have hf : r.FormFile "file" = .error ⟨"http: no such file"⟩ := by
      rw [hup]
      simp [formFilePart, hempty]
    rw [receive_extract_failed os r fs _ hf] at hok
    simp at hok
  have hf : r.FormFile "file" = .ok (u.content, ⟨filepathBase u.filename⟩) := by
    rw [hup, formFilePart_named u hne]
  obtain ⟨h1, h2, h3⟩ := stored_under_header_name os r fs _ _ hf hok
  refine ⟨h1, h2, fun hs => filepathBase_plain u.filename hne hs, ?_⟩
  intro os2 r2 C2 hup2 hok2
  have hf2 : r2.FormFile "file" = .ok (C2, ⟨filepathBase u.filename⟩) := by
    rw [hup2]
    exact formFilePart_named ⟨u.filename, C2⟩ hne
  exact h3 os2 r2 C2 hf2 hok2

/-- Witness of C3 as the code has it: "report.csv", a name without a slash,
uploaded into a directory that already holds a file of that name. -/
theorem successful_upload_stores_under_base_name_witness :
    (receiveHandler noFaults (clientRequest "POST" plainUpload) someDir).fs "report.csv"
        = some [1, 2, 3]
    ∧ (∀ m, m ≠ "report.csv" →
        (receiveHandler noFaults (clientRequest "POST" plainUpload) someDir).fs m
          = someDir m) :=
  have h := successful_upload_stores_under_base_name noFaults
    (clientRequest "POST" plainUpload) someDir plainUpload rfl (by decide)
  have hb : filepathBase plainUpload.filename = "report.csv" := by decide
  ⟨hb ▸ h.1, hb ▸ h.2.1⟩

/-- What each exit of the receiver returns, writes and logs, in terms of the
texts named in the handler. -/
theorem receive_outcomes (os : Os) (r : Request) (fs : FileSys) :
    ((∃ n, Event.respWrite (confirmationPage n) ∈ (receiveHandler os r fs).trace)
        ↔ (receiveHandler os r fs).err = none)
    ∧ (∀ e, (receiveHandler os r fs).err = some e →
        (respBody (receiveHandler os r fs).trace = fprintlnErr e
          ∨ respBody (receiveHandler os r fs).trace = createFailedMsg)
        ∧ (∀ n, respBody (receiveHandler os r fs).trace ≠ confirmationPage n)
        ∧ logLines (receiveHandler os r fs).trace = [])
    ∧ (∀ e, r.FormFile "file" = .error e →
        (receiveHandler os r fs).err = some e
        ∧ respBody (receiveHandler os r fs).trace = fprintlnErr e)
    ∧ (∀ file header e, r.FormFile "file" = .ok (file, header) →
        os.createErr header.Filename = some e →
        (receiveHandler os r fs).err = some e
        ∧ respBody (receiveHandler os r fs).trace = createFailedMsg)
    ∧ (∀ file header k e, r.FormFile "file" = .ok (file, header) →
        os.createErr header.Filename = none → os.copyFault = some (k, e) →
        (receiveHandler os r fs).err = some e
        ∧ respBody (receiveHandler os r fs).trace = fprintlnErr e)
    ∧ (∀ file header, r.FormFile "file" = .ok (file, header) →
        (receiveHandler os r fs).err = none →
        respBody (receiveHandler os r fs).trace = confirmationPage header.Filename
        ∧ logLines (receiveHandler os r fs).trace = [receivedLogLine header.Filename]) := by
  have hne1 : ∀ (e : GoError) (n : String), ¬ confirmationPage n = fprintlnErr e :=
    fun e n h => fprintlnErr_ne_confirmationPage e n h.symm
  have hne2 : ∀ n : String, ¬ confirmationPage n = createFailedMsg :=
    fun n h => createFailedMsg_ne_confirmationPage n h.symm
  refine ⟨?_, ?_, ?_, ?_, ?_, ?_⟩
  · rcases receive_paths os r with ⟨e, hf⟩ | ⟨file, header, e, hf, hc⟩ |
      ⟨file, header, k, e, hf, hc, hk⟩ | ⟨file, header, hf, hc, hk⟩
    · rw [receive_extract_failed os r fs e hf]
      simp [hne1]
    · rw [receive_create_failed os r fs file header e hf hc]
      simp [hne2]
    · rw [receive_copy_failed os r fs file header k e hf hc hk]
      simp [hne1]
    · rw [receive_stored os r fs file header hf hc hk]
      simp
  · intro e0 herr
    rcases receive_paths os r with ⟨e, hf⟩ | ⟨file, header, e, hf, hc⟩ |
      ⟨file, header, k, e, hf, hc, hk⟩ | ⟨file, header, hf, hc, hk⟩
    · rw [receive_extract_failed os r fs e hf] at herr ⊢
      simp only [Option.some.injEq] at herr
      subst herr
      simp [respBody, logLines, fprintlnErr_ne_confirmationPage]
    · rw [receive_create_failed os r fs file header e hf hc] at herr ⊢
      simp [respBody, logLines, createFailedMsg_ne_confirmationPage]
    · rw [receive_copy_failed os r fs file header k e hf hc hk] at herr ⊢
      simp only [Option.some.injEq] at herr
      subst herr
      simp [respBody, logLines, fprintlnErr_ne_confirmationPage]
    · rw [receive_stored os r fs file header hf hc hk] at herr
      simp at herr
  · intro e hf
    rw [receive_extract_failed os r fs e hf]
    simp [respBody]
  · intro file header e hf hc
    rw [receive_create_failed os r fs file header e hf hc]
    simp [respBody]
  · intro file header k e hf hc hk
    rw [receive_copy_failed os r fs file header k e hf hc hk]
    simp [respBody]
  · intro file header hf hok
    obtain ⟨file2, header2, hf2, hc, hk⟩ := receive_no_error os r fs hok
    rw [hf] at hf2
    cases hf2
    rw [receive_stored os r fs file header hf hc hk]
    simp [respBody, logLines]

/-- C4: the receiver writes the confirmation page "File uploaded successfully:
<filename>" exactly when it returns no error. When it returns an error `e`, the
response body is the text of `e` and a newline, or the fixed text "Unable to
create the file for writing. Check your write access privilege"; it is the
confirmation page of no filename; and nothing is logged. The error returned is
the one of the step that failed (extraction, creation, copy). A call that
returns no error wrote the confirmation page of the uploaded name and logged
"File received: <filename>". -/
theorem confirmation_iff_no_error (os : Os) (r : Request) (fs : FileSys) :
    ((∃ n, Event.respWrite
          ("<html>\nFile uploaded successfully: " ++ n
            ++ " \n<p><a href=\"/\">Back</a></p>\n<html>")
          ∈ (receiveHandler os r fs).trace)
        ↔ (receiveHandler os r fs).err = none)
    ∧ (∀ e, (receiveHandler os r fs).err = some e →
        (respBody (receiveHandler os r fs).trace = e.msg ++ "\n"
          ∨ respBody (receiveHandler os r fs).trace
            = "Unable to create the file for writing. Check your write access privilege")
        ∧ (∀ n, respBody (receiveHandler os r fs).trace
            ≠ "<html>\nFile uploaded successfully: " ++ n
              ++ " \n<p><a href=\"/\">Back</a></p>\n<html>")
        ∧ logLines (receiveHandler os r fs).trace = [])
    ∧ (∀ e, r.FormFile "file" = .error e →
        (receiveHandler os r fs).err = some e
        ∧ respBody (receiveHandler os r fs).trace = e.msg ++ "\n")
    ∧ (∀ file header e, r.FormFile "file" = .ok (file, header) →
        os.createErr header.Filename = some e →
        (receiveHandler os r fs).err = some e
        ∧ respBody (receiveHandler os r fs).trace
          = "Unable to create the file for writing. Check your write access privilege")
    ∧ (∀ file header k e, r.FormFile "file" = .ok (file, header) →
        os.createErr header.Filename = none → os.copyFault = some (k, e) →
        (receiveHandler os r fs).err = some e
        ∧ respBody (receiveHandler os r fs).trace = e.msg ++ "\n")
    ∧ (∀ file header, r.FormFile "file" = .ok (file, header) →
        (receiveHandler os r fs).err = none →
        respBody (receiveHandler os r fs).trace
          = "<html>\nFile uploaded successfully: " ++ header.Filename
            ++ " \n<p><a href=\"/\">Back</a></p>\n<html>"
        ∧ logLines (receiveHandler os r fs).trace
          = ["File received: " ++ header.Filename]) := by
  have h := receive_outcomes os r fs
  simp only [confirmationPage, fprintlnErr, createFailedMsg, receivedLogLine] at h
  exact h

/-- Witness of C4: an upload into a directory that refuses the creation returns
"permission denied" and answers with the fixed text; an upload that is stored
answers with the confirmation page of "report.csv" and logs it. -/
theorem confirmation_iff_no_error_witness :
    ((receiveHandler readOnlyDir (reportUpload "POST" [1, 2, 3]) someDir).err
        = some ⟨"permission denied"⟩
      ∧ respBody (receiveHandler readOnlyDir (reportUpload "POST" [1, 2, 3]) someDir).trace
        = "Unable to create the file for writing. Check your write access privilege")
    ∧ (respBody (receiveHandler noFaults (reportUpload "POST" [1, 2, 3]) someDir).trace
        = "<html>\nFile uploaded successfully: report.csv \n<p><a href=\"/\">Back</a></p>\n<html>"
      ∧ logLines (receiveHandler noFaults (reportUpload "POST" [1, 2, 3]) someDir).trace
        = ["File received: report.csv"]) :=
  ⟨(confirmation_iff_no_error readOnlyDir (reportUpload "POST" [1, 2, 3]) someDir).2.2.2.1
      [1, 2, 3] ⟨"report.csv"⟩ ⟨"permission denied"⟩ rfl rfl,
   (confirmation_iff_no_error noFaults (reportUpload "POST" [1, 2, 3]) someDir).2.2.2.2.2
      [1, 2, 3] ⟨"report.csv"⟩ rfl (by decide)⟩

/-- C5 fails on the code: the claim has the receiver accept only POST, and its
own comments speak of the POST input, but `receiveHandler` never reads the
method. A PUT carrying the form file "report.csv" is not a POST, yet the
receiver creates the file in an empty directory, returns no error and writes
the confirmation page. -/
theorem receiveHandler_accepts_put :
    (reportUpload "PUT" [1, 2, 3]).Method ≠ "POST"
    ∧ emptyDir "report.csv" = none
    ∧ (receiveHandler noFaults (reportUpload "PUT" [1, 2, 3]) emptyDir).fs "report.csv"
        = some [1, 2, 3]
    ∧ (receiveHandler noFaults (reportUpload "PUT" [1, 2, 3]) emptyDir).err = none
    ∧ Event.respWrite
        "<html>\nFile uploaded successfully: report.csv \n<p><a href=\"/\">Back</a></p>\n<html>"
        ∈ (receiveHandler noFaults (reportUpload "PUT" [1, 2, 3]) emptyDir).trace := by
  refine ⟨by decide, rfl, by decide, by decide, by decide⟩

/-- C6: on every exit path the receiver has closed what it opened and nothing
else. Over the whole trace, each stream is closed as often as it was opened.
Path by path: a failed extraction opens and closes nothing; a failed creation
opens and closes the upload stream only; once the creation has succeeded,
whether the copy fails or not, the destination is opened after the upload
stream and closed before it; and the closings are the last events before the
return. -/
theorem receiveHandler_closes_what_it_opened (os : Os) (r : Request) (fs : FileSys) :
    (List.count Event.openUpload (receiveHandler os r fs).trace
        = List.count Event.closeUpload (receiveHandler os r fs).trace
      ∧ ∀ n, List.count (Event.openDest n) (receiveHandler os r fs).trace
        = List.count (Event.closeDest n) (receiveHandler os r fs).trace)
    ∧ (∀ e, r.FormFile "file" = .error e →
        streamEvents (receiveHandler os r fs).trace = [])
    ∧ (∀ file header e, r.FormFile "file" = .ok (file, header) →
        os.createErr header.Filename = some e →
        streamEvents (receiveHandler os r fs).trace = [.openUpload, .closeUpload]
        ∧ List.IsSuffix [Event.closeUpload] (receiveHandler os r fs).trace)
    ∧ (∀ file header, r.FormFile "file" = .ok (file, header) →
        os.createErr header.Filename = none →
        streamEvents (receiveHandler os r fs).trace =
          [.openUpload, .openDest header.Filename, .closeDest header.Filename, .closeUpload]
        ∧ List.IsSuffix [Event.closeDest header.Filename, Event.closeUpload]
            (receiveHandler os r fs).trace) := by
  refine ⟨?_, ?_, ?_, ?_⟩
  · rcases receive_paths os r with ⟨e, hf⟩ | ⟨file, header, e, hf, hc⟩ |
      ⟨file, header, k, e, hf, hc, hk⟩ | ⟨file, header, hf, hc, hk⟩
    · rw [receive_extract_failed os r fs e hf]
      simp
    · rw [receive_create_failed os r fs file header e hf hc]
      simp
    · rw [receive_copy_failed os r fs file header k e hf hc hk]
      refine ⟨by simp, fun n => ?_⟩
      by_cases hn : header.Filename = n <;> simp [List.count_cons, hn]
    · rw [receive_stored os r fs file header hf hc hk]
      refine ⟨by simp, fun n => ?_⟩
      by_cases hn : header.Filename = n <;> simp [List.count_cons, hn]
  · intro e hf
    rw [receive_extract_failed os r fs e hf]
    simp [streamEvents, Event.isStream]
  · intro file header e hf hc
    rw [receive_create_failed os r fs file header e hf hc]
    refine ⟨by simp [streamEvents, Event.isStream], ?_⟩
    exact ⟨[.openUpload, .respWrite createFailedMsg], rfl⟩
  · intro file header hf hc
    cases hk : os.copyFault with
    | some ke =>
      rw [receive_copy_failed os r fs file header ke.1 ke.2 hf hc hk]
      refine ⟨by simp [streamEvents, Event.isStream], ?_⟩
      exact ⟨[.openUpload, .openDest header.Filename, .respWrite (fprintlnErr ke.2)], rfl⟩
    | none =>
      rw [receive_stored os r fs file header hf hc hk]
      refine ⟨by simp [streamEvents, Event.isStream], ?_⟩
      exact ⟨[.openUpload, .openDest header.Filename,
        .logPrintln (receivedLogLine header.Filename),
        .respWrite (confirmationPage header.Filename)], rfl⟩

/-- Witness of C6: a copy that fails half-way still closes both streams. -/
theorem receiveHandler_closes_what_it_opened_witness :
    streamEvents (receiveHandler diskFull (reportUpload "POST" [1, 2, 3]) someDir).trace =
      [.openUpload, .openDest "report.csv", .closeDest "report.csv", .closeUpload]
    ∧ List.IsSuffix [Event.closeDest "report.csv", Event.closeUpload]
        (receiveHandler diskFull (reportUpload "POST" [1, 2, 3]) someDir).trace :=
  (receiveHandler_closes_what_it_opened diskFull (reportUpload "POST" [1, 2, 3])
    someDir).2.2.2 [1, 2, 3] ⟨"report.csv"⟩ rfl rfl

/-- C8: a failed upload is not rolled back. In general, when the creation
succeeds and the copy fails after `k` bytes, the receiver returns the error of
the copy and the file of the uploaded name holds the first `k` uploaded bytes,
whatever it held before. In particular there is such an upload: "report.csv"
held four bytes, the copy of three new bytes fails after two, the receiver
returns the error, and the file now holds those two bytes, neither its old
content nor the whole upload. -/
theorem failed_copy_is_not_rolled_back :
    (∀ (os : Os) (r : Request) (fs : FileSys) (file : List Byte) (header : FileHeader)
        (k : Nat) (e : GoError),
        r.FormFile "file" = .ok (file, header) → os.createErr header.Filename = none →
        os.copyFault = some (k, e) →
          (receiveHandler os r fs).err = some e
          ∧ (receiveHandler os r fs).fs header.Filename = some (file.take k))
    ∧ (∃ (os : Os) (r : Request) (fs : FileSys) (n : String) (old file kept : List Byte),
        r.FormFile "file" = .ok (file, ⟨n⟩)
        ∧ os.createErr n = none
        ∧ (∃ k e, os.copyFault = some (k, e) ∧ k < file.length ∧ kept = file.take k)
        ∧ fs n = some old
        ∧ (receiveHandler os r fs).err ≠ none
        ∧ (receiveHandler os r fs).fs ≠ fs
        ∧ (receiveHandler os r fs).fs n = some kept
        ∧ kept ≠ old ∧ kept ≠ file) := by
  constructor
  · intro os r fs file header k e hf hc hk
    rw [receive_copy_failed os r fs file header k e hf hc hk]
    exact ⟨rfl, put_same fs _ _⟩
  · refine ⟨diskFull, reportUpload "POST" [1, 2, 3], someDir, "report.csv",
      [9, 9, 9, 9], [1, 2, 3], [1, 2], rfl, rfl,
      ⟨2, ⟨"no space left on device"⟩, rfl, by decide, by decide⟩, by decide, by decide,
      ?_, by decide, by decide, by decide⟩
    intro h
    have h2 := congrFun h "report.csv"
    revert h2
    decide

/-! ### Exit status (C7) -/

/-- Counterexample to C7 as stated: with action "help" and a working directory
that cannot be looked up, the process exits with status 1, not 0, because `main`
looks the directory up before it looks at the action. And in mode "up", when
the interface addresses cannot be read, the process exits (status 1) without
the timer having been started. -/
theorem help_without_directory_exits_one :
    helpWithoutDir.action = "help"
    ∧ (run helpWithoutDir).status = 1
    ∧ (run helpWithoutDir).status ≠ 0
    ∧ upWithoutAddrs.action = "up"
    ∧ (run upWithoutAddrs).timerStarted = false := by
  decide

/-- C7, as the code has it: the exit status follows the startup outcome in the
order the code checks it. It is 1 when the command fails; else 1 when the
working directory cannot be looked up; else 0 when the action is help or
version, and then no timer was started; else, in a mode "up", "down" or
"up/down" whose address lookup fails, 1 before the timer is started; else the
timer is started and the status is 1 when the listen fails or the serve loop
returns and 0 when the timer expires. The status is always 0 or 1. -/
theorem exit_status_follows_startup_order (s : Startup) :
    ((run s).status = 0 ∨ (run s).status = 1)
    ∧ (s.executeErr = true → (run s).status = 1 ∧ (run s).timerStarted = false)
    ∧ (∀ e, s.getwd = .error e → (run s).status = 1 ∧ (run s).timerStarted = false)
    ∧ (s.executeErr = false → ∀ dir, s.getwd = .ok dir →
        ((s.action = "help" ∨ s.action = "version") →
          (run s).status = 0 ∧ (run s).timerStarted = false)
        ∧ (s.action ≠ "help" → s.action ≠ "version" →
            ((s.action = "up" ∨ s.action = "down" ∨ s.action = "up/down") →
              s.interfaceAddrsErr = true →
              (run s).status = 1 ∧ (run s).timerStarted = false)
            ∧ (((s.action = "up" ∨ s.action = "down" ∨ s.action = "up/down") →
                s.interfaceAddrsErr = false) →
              (run s).timerStarted = true
              ∧ (s.ending = .listenFailed → (run s).status = 1)
              ∧ (s.ending = .serveReturned → (run s).status = 1)
              ∧ (s.ending = .timerExpired → (run s).status = 0)))) := by
  obtain ⟨x, a, g, i, e⟩ := s
  cases x <;> cases g <;> cases i <;> cases e <;>
    by_cases h1 : a = "help" <;> by_cases h2 : a = "version" <;>
    by_cases h3 : a = "up" <;> by_cases h4 : a = "down" <;>
    by_cases h5 : a = "up/down" <;>
    simp_all [run, main, printAddressAndPort, Proc.handle, Proc.exit, Except.map]

/-- Witness of C7 as the code has it: mode "down" ended by its timer has started
the timer and exits with status 0. -/
theorem exit_status_follows_startup_order_witness :
    (run (serving "down" "/srv" .timerExpired)).timerStarted = true
    ∧ (run (serving "down" "/srv" .timerExpired)).status = 0 :=
  have h := (((exit_status_follows_startup_order (serving "down" "/srv" .timerExpired)).2.2.2
    rfl "/srv" rfl).2 (by decide) (by decide)).2 (fun _ => rfl)
  ⟨h.1, h.2.2.2 rfl⟩

end MyPfs
